import Mathlib

/-
Formal model of the session-driven classification engine in
"Stable - Check AceNet.py" (function automate_search, together with
is_driver_alive).  The script walks a list of part-number identifiers,
drives a browser session per identifier, and appends classification
events to category columns.  We embed:

  * the seven output categories (columns written by append_to_excel);
  * the status-text pattern tests (the re.search calls, lines 528-543);
  * the Python float parse used by the On Order check (line 602);
  * the per-identifier classification rules (lines 517-627) as a pure
    function of the extracted field values;
  * the per-identifier navigation body (lines 368-651) as a step
    function over an environment record that fixes the outcome of every
    fallible browser interaction of that loop iteration;
  * the while loop with its health check and restart budget
    (lines 352-651) as a recursion over the identifier list, consuming
    one environment record per loop iteration.

Spec vocabulary: the category NotInCatalog is the "Not in AceNet"
column, and NotInFulfillmentCenter is the "Not in RSC" column.
String primitives (strip, lower-casing for re.IGNORECASE, digit test)
are modelled by structural recursion over the character list of the
string, for the ASCII texts the application produces.
-/

namespace CheckAceNet

/-- The seven categories, one per output column initialized by
initialize_excel_output: "No Discovery", "No Asterisk(*)", "Cancelled",
"On Order", "No Location", "Not in AceNet", "Not in RSC". -/
inductive Category where
  | noDiscovery
  | noAsterisk
  | cancelled
  | onOrder
  | noLocation
  | notInAceNet
  | notInRSC
deriving DecidableEq, Repr

/-- Characters the Python regex class matches with a backslash-s
(ASCII range), also the characters str.strip removes: space, tab,
newline, carriage return, vertical tab, form feed. -/
def pySpace (c : Char) : Bool :=
  c = ' ' || c = '\t' || c = '\n' || c = '\r' || c = '\x0b' || c = '\x0c'

/-- ASCII lower-casing of one character (A-Z to a-z). -/
def lowerChar (c : Char) : Char :=
  if 65 ≤ c.toNat ∧ c.toNat ≤ 90 then Char.ofNat (c.toNat + 32) else c

/-- ASCII str.lower, used to model re.IGNORECASE matching. -/
def pyLower (s : String) : String :=
  ⟨s.toList.map lowerChar⟩

/-- Python str.strip: drop whitespace from both ends. -/
def stripChars (cs : List Char) : List Char :=
  ((cs.dropWhile pySpace).reverse.dropWhile pySpace).reverse

/-- Python str.strip on strings. -/
def pyStrip (s : String) : String :=
  ⟨stripChars s.toList⟩

/-- ASCII decimal digit test. -/
def pyDigit (c : Char) : Bool :=
  48 ≤ c.toNat && c.toNat ≤ 57

/-- Does the pattern occur as a contiguous substring?  Models a
re.search of a fixed literal pattern. -/
def containsSub (pat : List Char) : List Char → Bool
  | [] => pat.isEmpty
  | s@(_ :: rest) => pat.isPrefixOf s || containsSub pat rest

/-- Substring search over strings (pattern literal, subject text). -/
def containsStr (pat s : String) : Bool :=
  containsSub pat.toList s.toList

/-- Match a sequence of literal words separated by one-or-more
whitespace characters, anchored at the start of the text.  Models a
regex of the form w1 backslash-s+ w2 backslash-s+ ... wn.  Since the
words contain no whitespace, consuming the whitespace run greedily is
equivalent to the regex semantics. -/
def matchSeqAt : List (List Char) → List Char → Bool
  | [], _ => true
  | [w], s => w.isPrefixOf s
  | w :: ws, s =>
      w.isPrefixOf s &&
      (let s1 := s.drop w.length
       let s2 := s1.dropWhile pySpace
       decide (s2.length < s1.length) && matchSeqAt ws s2)

/-- re.search of a whitespace-joined word sequence: the match may start
at any position of the text. -/
def searchSeq (ws : List (List Char)) : List Char → Bool
  | [] => matchSeqAt ws []
  | s@(_ :: rest) => matchSeqAt ws s || searchSeq ws rest

/-- Search a lower-cased text for a word sequence (models re.search
with re.IGNORECASE by lower-casing the subject first). -/
def searchWords (ws : List String) (s : String) : Bool :=
  searchSeq (ws.map String.toList) (pyLower s).toList

/-- Lines 528-530: the three fulfillment-center exclusion patterns
("not carried in your rsc", "not carried by rsc", "not in rsc"),
each case-insensitive with whitespace-plus separators. -/
def rscMatch (s : String) : Bool :=
  searchWords ["not", "carried", "in", "your", "rsc"] s ||
  searchWords ["not", "carried", "by", "rsc"] s ||
  searchWords ["not", "in", "rsc"] s

/-- Line 542: the cancellation/closeout pattern.  The regex
cancel(?:led|lation)? matches whenever "cancel" occurs (the group is
optional), and close(?:out|-out|d out) matches on one of the three
closeout spellings.  Case-insensitive. -/
def cancelMatch (s : String) : Bool :=
  containsStr "cancel" (pyLower s) || containsStr "closeout" (pyLower s) ||
  containsStr "close-out" (pyLower s) || containsStr "closed out" (pyLower s)

/-- Line 543: the replacement/discontinued suppression pattern,
case-insensitive. -/
def replMatch (s : String) : Bool :=
  containsStr "replacement" (pyLower s) || containsStr "discontinued" (pyLower s)

/-- Value of a digit string, most significant digit first. -/
def digitsVal (ds : List Char) : Nat :=
  ds.foldl (fun a c => a * 10 + (c.toNat - 48)) 0

/-- Powers of ten. -/
def pow10 : Nat → Nat
  | 0 => 1
  | n + 1 => 10 * pow10 n

/-- A finite decimal value num / 10 ^ scale, the result of a
successful float(...) parse. -/
structure FloatVal where
  num : Int
  scale : Nat
deriving DecidableEq, Repr

/-- The real value of a parsed decimal. -/
def FloatVal.toRat (v : FloatVal) : Rat :=
  (v.num : Rat) / ((10 : Rat) ^ v.scale)

/-- The comparison order_value greater than 0 of line 603. -/
def FloatVal.isPos (v : FloatVal) : Bool :=
  decide (0 < v.num)

/-- Parse the characters after an optional sign: digits, optionally a
dot and more digits, at least one digit overall and nothing else. -/
def pyFloatAux (sign : Int) (cs : List Char) : Option FloatVal :=
  let ip := cs.takeWhile pyDigit
  let r1 := cs.dropWhile pyDigit
  match r1 with
  | [] => if ip.isEmpty then none else some ⟨sign * (digitsVal ip : Int), 0⟩
  | '.' :: fr =>
      let fp := fr.takeWhile pyDigit
      let r2 := fr.dropWhile pyDigit
      if r2.isEmpty then
        if ip.isEmpty && fp.isEmpty then none
        else some ⟨sign * ((digitsVal ip * pow10 fp.length + digitsVal fp : Nat) : Int), fp.length⟩
      else none
  | _ => none

/-- The Python float(...) call of line 602, modelled for finite decimal
literals (optional sign, integer and/or fractional digits).  A text
that does not have this shape raises ValueError in the source, which
the source turns into "skip"; here that is the none result. -/
def pyFloat (s : String) : Option FloatVal :=
  match s.toList with
  | [] => none
  | '+' :: r => pyFloatAux 1 r
  | '-' :: r => pyFloatAux (-1) r
  | cs => pyFloatAux 1 cs

/-- Raw field values read during one identifier's extraction phase
(lines 517-627).  A none value means the corresponding wait/find
raised and the source took its local skip branch.  discoveryAttempts
lists the outcome of each successive probe of the discovery-content
region (line 563): none for a miss, the raw text for a hit; probes
beyond the end of the list miss. -/
structure Extraction where
  statusText : Option String
  discoveryAttempts : List (Option String)
  linkText : Option String
  orderText : Option String
  locationText : Option String
deriving DecidableEq, Repr

/-- Fate of the status-text checks of lines 517-556: short-circuit to
Not in RSC, short-circuit to Cancelled, or fall through to the
independent rules. -/
inductive StatusFate where
  | rsc
  | cancel
  | through
deriving DecidableEq, Repr

/-- Lines 517-556: strip the status text (line 524); if non-empty and
an RSC exclusion pattern matches, Not in RSC wins; otherwise if
non-empty, the cancellation pattern matches and the replacement
pattern does not, Cancelled wins; otherwise fall through.  An absent
status region (the except branch of line 548) falls through. -/
def statusFate : Option String → StatusFate
  | none => .through
  | some raw =>
      if pyStrip raw = "" then .through
      else if rscMatch (pyStrip raw) then .rsc
      else if cancelMatch (pyStrip raw) && !replMatch (pyStrip raw) then .cancel
      else .through

/-- Number of discovery probes: line 560, three attempts for the first
identifier of the run, two afterwards. -/
def maxAttempts (isFirst : Bool) : Nat :=
  if isFirst then 3 else 2

/-- The probe loop of lines 561-578: attempts run in order and the
first hit ends the loop, keeping that hit's text. -/
def discoveryResult (isFirst : Bool) (att : List (Option String)) : Option String :=
  (List.range (maxAttempts isFirst)).findSome? (fun k => att.getD k none)

/-- Line 579: No Discovery fires when no probe hit, or the hit's
stripped text is empty. -/
def discoveryMiss (isFirst : Bool) (att : List (Option String)) : Bool :=
  match discoveryResult isFirst att with
  | none => true
  | some t => pyStrip t = ""

/-- Step 1 (lines 557-581): the No Discovery events. -/
def discoveryEv (isFirst : Bool) (att : List (Option String)) : List Category :=
  if discoveryMiss isFirst att then [.noDiscovery] else []

/-- Step 2 (lines 582-593): No Asterisk fires when the link text is
present, non-empty after stripping, and contains no asterisk. -/
def asteriskEv : Option String → List Category
  | none => []
  | some t =>
      if pyStrip t = "" then []
      else if (pyStrip t).toList.contains '*' then []
      else [.noAsterisk]

/-- Step 4 (lines 594-611): On Order fires when the stripped quantity
text parses as a float strictly greater than zero; a parse failure or
an absent display emits nothing. -/
def orderEv : Option String → List Category
  | none => []
  | some t =>
      match pyFloat (pyStrip t) with
      | none => []
      | some v => if v.isPos then [.onOrder] else []

/-- Step 5 (lines 612-627): No Location fires when the location region
is absent or its stripped text is empty. -/
def locationEv : Option String → List Category
  | none => [.noLocation]
  | some t => if pyStrip t = "" then [.noLocation] else []

/-- The independent rules of lines 557-627, in source emission order:
No Discovery, No Asterisk, On Order, No Location. -/
def indepEvents (isFirst : Bool) (e : Extraction) : List Category :=
  discoveryEv isFirst e.discoveryAttempts ++ asteriskEv e.linkText ++
  orderEv e.orderText ++ locationEv e.locationText

/-- The whole classifier of lines 517-627 as a function of the
extracted fields: the two short-circuit rules, then the independent
rules. -/
def classify (isFirst : Bool) (e : Extraction) : List Category :=
  match statusFate e.statusText with
  | .rsc => [.notInRSC]
  | .cancel => [.cancelled]
  | .through => indepEvents isFirst e

/-- Outcome of reading driver.title in is_driver_alive (lines 295-300):
either the read answers, or the communication layer raises a
WebDriverException. -/
inductive TitleProbe where
  | ok
  | webDriverExc
deriving DecidableEq, Repr

/-- is_driver_alive (lines 295-300): reading a trivial session property
succeeds, or the WebDriverException is caught and False is returned;
the probe never propagates the communication fault. -/
def is_driver_alive : TitleProbe → Bool
  | .ok => true
  | .webDriverExc => false

/-- Environment for one iteration of the while loop: the outcome of
every fallible browser interaction of lines 353-651, in program order.
A true flag means the interaction succeeds; a false flag means it
raises, sending control to the handler that guards it.  The few
cleanup switch-backs inside the frame loop that are individually
guarded in the source (lines 501-510) are absorbed into frameFound. -/
structure World where
  /-- Line 356: the is_driver_alive health probe. -/
  aliveProbe : TitleProbe
  /-- Line 366: start_browser_and_login after a failed health check;
  false aborts the whole run via the outer handler. -/
  restartOk : Bool
  /-- Line 371: switch to the main window. -/
  switchMainOk : Bool
  /-- Line 373: the first 10 second wait for the search box. -/
  skuFound1 : Bool
  /-- Lines 378-383: switch-reload-wait of the home page retry. -/
  retryNavOk : Bool
  /-- Line 385: the post-reload wait for the search box. -/
  skuFound2 : Bool
  /-- Lines 392-399: popup close sweep and main-window switch of the
  skip branch taken when the search box never appears. -/
  skipCleanupOk : Bool
  /-- Lines 402-404: clear, send_keys, RETURN. -/
  sendKeysOk : Bool
  /-- Lines 410-418: the window-handle enumeration; false is the
  connection-error branch of lines 417-445. -/
  debugLoopOk : Bool
  /-- Lines 446-448: switch to main and read its address. -/
  switchMainOk2 : Bool
  /-- Line 449: the address contains "/search/product?q=". -/
  redirected : Bool
  /-- Lines 452-465: home reload and popup close-out of the
  redirect branch. -/
  redirectCleanupOk : Bool
  /-- Line 468: reading driver.window_handles. -/
  handlesOk : Bool
  /-- Line 468: how many window handles exist. -/
  numWindows : Nat
  /-- Lines 474-479: switch to the popup window. -/
  switchPopupOk : Bool
  /-- Lines 482-484: the 5 second wait finds at least one iframe. -/
  iframesFound : Bool
  /-- Line 488: main-window switch of the no-iframes branch. -/
  cleanupOkNoIframes : Bool
  /-- Lines 492-510: some iframe accepts the switch and contains the
  discovery region probe. -/
  frameFound : Bool
  /-- Line 514: main-window switch of the no-valid-iframe branch. -/
  cleanupOkNoFrame : Bool
  /-- The field values read by the extraction steps (lines 517-627). -/
  extraction : Extraction
  /-- Lines 536-538: frame and window switch-back of the RSC branch. -/
  cleanupOkRsc : Bool
  /-- Lines 552-554: frame and window switch-back of the
  Cancelled branch. -/
  cleanupOkCancelled : Bool
  /-- Lines 628-630: frame and window switch-back after the
  independent rules. -/
  cleanupOkNormal : Bool
  /-- Lines 439 and 645: start_browser_and_login after a fault;
  false aborts the run. -/
  faultRestartOk : Bool
deriving DecidableEq, Repr

/-- What one iteration of the loop body did for its identifier:
the categories appended (in order), whether control reached a
per-identifier fault handler (lines 417-445 or 632-651, which quits
and restarts the browser), whether the close-every-transient-window
sweep ran, and whether focus was returned to the main window. -/
structure StepOutcome where
  events : List Category
  faulted : Bool
  closedTransients : Bool
  focusMain : Bool
deriving DecidableEq, Repr

/-- A fault handler outcome: the listed events were appended, the
session is suspect and will be quit and restarted. -/
def faultOut (evs : List Category) : StepOutcome :=
  ⟨evs, true, false, false⟩

/-- The status checks and extraction steps of lines 517-630, after a
frame has been found.  The RSC branch's switch-back (lines 536-538)
sits inside the try of line 520: when it raises, the handler at
line 548 swallows the fault, is_cancelled stays False, the independent
rules of lines 557-627 still run, and only the switch-back of
lines 628-630 follows (its failure, like that of the Cancelled
branch's switch-back at lines 552-554 which sits outside that try,
lands in the per-identifier handler, which appends "Not in AceNet" on
top of what was already appended). -/
def classifyStep (isFirst : Bool) (w : World) : StepOutcome :=
  match statusFate w.extraction.statusText with
  | .rsc =>
      if w.cleanupOkRsc then ⟨[.notInRSC], false, false, true⟩
      else if w.cleanupOkNormal then
        ⟨[.notInRSC] ++ indepEvents isFirst w.extraction, false, false, true⟩
      else faultOut (([.notInRSC] ++ indepEvents isFirst w.extraction) ++ [.notInAceNet])
  | .cancel =>
      if w.cleanupOkCancelled then ⟨[.cancelled], false, false, true⟩
      else faultOut [.cancelled, .notInAceNet]
  | .through =>
      if w.cleanupOkNormal then ⟨indepEvents isFirst w.extraction, false, false, true⟩
      else faultOut (indepEvents isFirst w.extraction ++ [.notInAceNet])

/-- Lines 402-630: the part of the loop body after the search box has
been located: submit the search, inspect the windows, and either take
one of the "Not in AceNet" skip branches or reach extraction. -/
def afterSku (isFirst : Bool) (w : World) : StepOutcome :=
  if w.sendKeysOk = false then faultOut [.notInAceNet]
  else if w.debugLoopOk = false then faultOut [.notInAceNet]
  else if w.switchMainOk2 = false then faultOut [.notInAceNet]
  else if w.redirected then
    (if w.redirectCleanupOk then ⟨[.notInAceNet], false, true, true⟩
     else faultOut [.notInAceNet, .notInAceNet])
  else if w.handlesOk = false then faultOut [.notInAceNet]
  else if w.numWindows < 2 then ⟨[.notInAceNet], false, false, true⟩
  else if w.switchPopupOk = false then faultOut [.notInAceNet]
  else if w.iframesFound = false then
    (if w.cleanupOkNoIframes then ⟨[.notInAceNet], false, false, true⟩
     else faultOut [.notInAceNet, .notInAceNet])
  else if w.frameFound = false then
    (if w.cleanupOkNoFrame then ⟨[.notInAceNet], false, false, true⟩
     else faultOut [.notInAceNet, .notInAceNet])
  else classifyStep isFirst w

/-- The whole guarded loop body (lines 368-651) for one identifier:
switch to the main window, locate the search box (with one full-page
reload retry, and a skip branch rather than a fault when the retry
also misses), then the rest of the navigation and extraction. -/
def processIdent (isFirst : Bool) (w : World) : StepOutcome :=
  if w.switchMainOk = false then faultOut [.notInAceNet]
  else if w.skuFound1 then afterSku isFirst w
  else if w.retryNavOk = false then faultOut [.notInAceNet]
  else if w.skuFound2 = false then
    (if w.skipCleanupOk then ⟨[.notInAceNet], false, true, true⟩
     else faultOut [.notInAceNet, .notInAceNet])
  else afterSku isFirst w

/-- Result of a whole run (or of the tail of a run): the
(identifier, category) pairs appended in order, whether the run was
cut short (restart budget exceeded, or a relogin failed), and how
many times restart_count was incremented. -/
structure RunResult where
  events : List (String × Category)
  halted : Bool
  restartsUsed : Nat
deriving DecidableEq, Repr

/-- Lines 368-651 as seen by the driver loop: run the body; on a fault
(lines 417-445 and 632-651) increment restart_count, abort when the
budget is now exceeded or the relogin fails, otherwise advance.
Returns the tagged events, the restart_count increment of this part of
the iteration added to inc0, and whether the run stops here. -/
def procIter (maxR : Nat) (isFirst : Bool) (rc : Nat) (inc0 : Nat) (p : String)
    (w : World) : List (String × Category) × Nat × Bool :=
  let o := processIdent isFirst w
  let evs := o.events.map (fun c => (p, c))
  if o.faulted then
    if maxR < rc + 1 then (evs, inc0 + 1, true)
    else if w.faultRestartOk then (evs, inc0 + 1, false)
    else (evs, inc0 + 1, true)
  else (evs, inc0, false)

/-- One full iteration of the while loop (lines 353-651): the health
check of lines 356-367 (restart on a dead session, bounded by the
budget), then the guarded body. -/
def stepIter (maxR : Nat) (isFirst : Bool) (rc : Nat) (p : String)
    (w : World) : List (String × Category) × Nat × Bool :=
  if is_driver_alive w.aliveProbe then procIter maxR isFirst rc 0 p w
  else if maxR < rc + 1 then ([], 1, true)
  else if w.restartOk then procIter maxR isFirst (rc + 1) 1 p w
  else ([], 1, true)

/-- An all-good environment record used where a world list runs short;
its choice is irrelevant to every stated property. -/
def defaultWorld : World :=
  ⟨.ok, true, true, true, true, true, true, true, true, true, false, true, true, 2,
   true, true, true, true, true, ⟨none, [], none, none, none⟩, true, true, true, true⟩

/-- The while loop of lines 353-651: one iteration per identifier
still pending (each iteration either advances idx by one or stops the
run), threading restart_count and consuming one environment record per
iteration.  isFirst is true while idx = 0 (the identifier-zero timing
and retry-count special cases of lines 406 and 560). -/
def runFrom (maxR : Nat) (isFirst : Bool) (rc : Nat) :
    List String → List World → RunResult
  | [], _ => ⟨[], false, 0⟩
  | p :: ps, ws =>
      let s := stepIter maxR isFirst rc p (ws.headD defaultWorld)
      if s.2.2 then ⟨s.1, true, s.2.1⟩
      else
        let r := runFrom maxR false (rc + s.2.1) ps ws.tail
        ⟨s.1 ++ r.events, r.halted, s.2.1 + r.restartsUsed⟩

/-- An environment in which every interaction succeeds (given the
stated health-probe outcome), no redirect happens, a popup and a
matching frame exist, and extraction reads the given fields: the loop
body then processes the identifier normally. -/
def okWorldP (pr : TitleProbe) (e : Extraction) : World :=
  ⟨pr, true, true, true, true, true, true, true, true, true, false, true, true, 2,
   true, true, true, true, true, e, true, true, true, true⟩

/-- An all-good environment with a healthy session. -/
def okWorld (e : Extraction) : World :=
  okWorldP .ok e

/-- An all-good environment whose session is initially dead: the
health probe's title read raises a WebDriverException, and the relogin
succeeds. -/
def deadOkWorld (e : Extraction) : World :=
  okWorldP .webDriverExc e

/-- An environment whose very first body interaction (the main-window
switch of line 371) raises: the iteration faults immediately.  All
other flags are as in okWorld. -/
def faultWorld : World :=
  ⟨.ok, true, false, true, true, true, true, true, true, true, false, true, true, 2,
   true, true, true, true, true, ⟨none, [], none, none, none⟩, true, true, true, true⟩

/- ------------------------------------------------------------------
Example environments used by the concrete statements below.
------------------------------------------------------------------ -/

/-- Extraction with an absent discovery region (all probes miss), no
link text, no order quantity, and a stocked location: exactly the
No Discovery rule fires. -/
def eAisle : Extraction := ⟨none, [], none, none, some "Aisle 4"⟩

/-- A live listing: discovery text present, link text with an
asterisk, two on order, stocked location: exactly On Order fires. -/
def eLive : Extraction := ⟨none, [some "hello"], some "link*", some "2", some "Aisle 4"⟩

/-- All-good iteration except that the switch-back to the main window
after the independent rules (lines 628-630) raises. -/
def cexWorld : World := { okWorld eAisle with cleanupOkNormal := false }

/-- All-good iteration whose main window address matches the
no-results search pattern (line 449). -/
def redirWorld : World := { okWorld eAisle with redirected := true }

/-- All-good iteration whose switch to the popup window (line 477)
raises: a navigation fault. -/
def navFaultWorld : World := { okWorld eAisle with switchPopupOk := false }

/-- All-good iteration in which the search box is found neither
before (line 373) nor after (line 385) the full page reload. -/
def skuMissWorld : World := { okWorld eAisle with skuFound1 := false, skuFound2 := false }

/-- Status text naming the fulfillment-center exclusion while the
other fields would fire No Discovery, On Order and No Location. -/
def eRsc : Extraction := ⟨some "Not carried in your RSC", [], none, some "5", none⟩

/-- Cancelled status with a replacement, and fields that fire all four
independent rules. -/
def eCancelRepl : Extraction := ⟨some "Cancelled - replacement available", [some ""], some "abc", some "3.5", none⟩

/-- No status, one non-empty discovery hit, and an order quantity
of 3.5. -/
def eOrder : Extraction := ⟨none, [some "x"], none, some "3.5", some "A"⟩

/-- All-good iteration on an RSC-matching status whose RSC-branch
switch-back (lines 536-538) raises: the fault is swallowed by the
status-check handler of line 548, so the independent rules still run
and no restart occurs. -/
def rscSwallowWorld : World := { okWorld eRsc with cleanupOkRsc := false }

/- ------------------------------------------------------------------
Supporting lemmas about the classifier and the loop.
------------------------------------------------------------------ -/

theorem eq_of_mem_discoveryEv {c : Category} {b : Bool} {a : List (Option String)}
    (h : c ∈ discoveryEv b a) : c = Category.noDiscovery := by
  unfold discoveryEv at h
  split at h <;> simp_all

theorem eq_of_mem_asteriskEv {c : Category} {o : Option String}
    (h : c ∈ asteriskEv o) : c = Category.noAsterisk := by
  cases o with
  | none => simp [asteriskEv] at h
  | some t =>
      simp only [asteriskEv] at h
      split_ifs at h <;> simp_all

theorem eq_of_mem_orderEv {c : Category} {o : Option String}
    (h : c ∈ orderEv o) : c = Category.onOrder := by
  cases o with
  | none => simp [orderEv] at h
  | some t =>
      simp only [orderEv] at h
      split at h
      · simp at h
      · split_ifs at h <;> simp_all

theorem eq_of_mem_locationEv {c : Category} {o : Option String}
    (h : c ∈ locationEv o) : c = Category.noLocation := by
  cases o with
  | none => simpa [locationEv] using h
  | some t =>
      simp only [locationEv] at h
      split_ifs at h <;> simp_all

theorem notInAceNet_not_mem_indep (b : Bool) (e : Extraction) :
    Category.notInAceNet ∉ indepEvents b e := by
  intro h
  simp only [indepEvents, List.mem_append] at h
  rcases h with ((h | h) | h) | h
  · simpa using eq_of_mem_discoveryEv h
  · simpa using eq_of_mem_asteriskEv h
  · simpa using eq_of_mem_orderEv h
  · simpa using eq_of_mem_locationEv h

theorem cancelled_not_mem_indep (b : Bool) (e : Extraction) :
    Category.cancelled ∉ indepEvents b e := by
  intro h
  simp only [indepEvents, List.mem_append] at h
  rcases h with ((h | h) | h) | h
  · simpa using eq_of_mem_discoveryEv h
  · simpa using eq_of_mem_asteriskEv h
  · simpa using eq_of_mem_orderEv h
  · simpa using eq_of_mem_locationEv h

theorem noDiscovery_mem_indep_iff (b : Bool) (e : Extraction) :
    Category.noDiscovery ∈ indepEvents b e ↔ discoveryMiss b e.discoveryAttempts = true := by
  simp only [indepEvents, List.mem_append]
  constructor
  · rintro (((h | h) | h) | h)
    · unfold discoveryEv at h
      split at h <;> simp_all
    · simpa using eq_of_mem_asteriskEv h
    · simpa using eq_of_mem_orderEv h
    · simpa using eq_of_mem_locationEv h
  · intro h
    left; left; left
    simp [discoveryEv, h]

theorem onOrder_mem_indep_iff (b : Bool) (e : Extraction) :
    Category.onOrder ∈ indepEvents b e ↔
      ∃ t v, e.orderText = some t ∧ pyFloat (pyStrip t) = some v ∧ v.isPos = true := by
  simp only [indepEvents, List.mem_append]
  constructor
  · rintro (((h | h) | h) | h)
    · simpa using eq_of_mem_discoveryEv h
    · simpa using eq_of_mem_asteriskEv h
    · rcases ho : e.orderText with _ | t <;> rw [ho] at h
      · simp [orderEv] at h
      · simp only [orderEv] at h
        split at h
        · simp at h
        · rename_i v heq
          split_ifs at h with hv
          · exact ⟨t, v, rfl, heq, hv⟩
          · simp at h
    · simpa using eq_of_mem_locationEv h
  · rintro ⟨t, v, ho, hp, hv⟩
    left; right
    simp [orderEv, ho, hp, hv]

theorem classifyStep_last (b : Bool) (w : World)
    (h : (classifyStep b w).faulted = true) :
    (classifyStep b w).events.getLast? = some Category.notInAceNet := by
  rcases hsf : statusFate w.extraction.statusText <;>
    simp only [classifyStep, hsf] at h ⊢
  · by_cases hc : w.cleanupOkRsc
    · simp [hc] at h
    · by_cases hn : w.cleanupOkNormal
      · simp [hc, hn] at h
      · simp [hc, hn, faultOut]
        rw [show Category.notInRSC :: (indepEvents b w.extraction ++ [Category.notInAceNet]) =
              (Category.notInRSC :: indepEvents b w.extraction) ++ [Category.notInAceNet] by simp,
           List.getLast?_append_cons]
        rfl
  · by_cases hc : w.cleanupOkCancelled
    · simp [hc] at h
    · simp [hc, faultOut]
  · by_cases hc : w.cleanupOkNormal
    · simp [hc] at h
    · simp [hc, faultOut, List.getLast?_append_cons]

set_option maxHeartbeats 1600000 in
theorem afterSku_last (b : Bool) (w : World)
    (h : (afterSku b w).faulted = true) :
    (afterSku b w).events.getLast? = some Category.notInAceNet := by
  simp only [afterSku] at h ⊢
  split_ifs at h ⊢ <;>
    first
      | rfl
      | exact classifyStep_last b w h

/-- Every fault handler appends "Not in AceNet" last (line 420 and
line 634 run before the restart). -/
theorem faulted_last (b : Bool) (w : World)
    (h : (processIdent b w).faulted = true) :
    (processIdent b w).events.getLast? = some Category.notInAceNet := by
  simp only [processIdent] at h ⊢
  split_ifs at h ⊢ <;>
    first
      | rfl
      | exact afterSku_last b w h

/-- In an all-good environment the loop body classifies the extracted
fields and returns focus to the main window without faulting.  The
health-probe outcome is irrelevant to the body itself. -/
theorem processIdent_okWorldP (b : Bool) (e : Extraction) (pr : TitleProbe) :
    processIdent b (okWorldP pr e) = ⟨classify b e, false, false, true⟩ := by
  rcases hsf : statusFate e.statusText <;>
    simp [processIdent, afterSku, classifyStep, classify, okWorldP, hsf]

theorem processIdent_okWorld (b : Bool) (e : Extraction) :
    processIdent b (okWorld e) = ⟨classify b e, false, false, true⟩ :=
  processIdent_okWorldP b e TitleProbe.ok

/-- Composition of the driver loop: a non-halting prefix aligned with
its environment records runs first, then the rest continues with the
accumulated restart count. -/
theorem runFrom_append (maxR : Nat) :
    ∀ (xs : List String) (vs : List World) (b : Bool) (rc : Nat)
      (ys : List String) (ws : List World),
      vs.length = xs.length →
      (runFrom maxR b rc xs vs).halted = false →
      runFrom maxR b rc (xs ++ ys) (vs ++ ws) =
        ⟨(runFrom maxR b rc xs vs).events ++
           (runFrom maxR (xs.isEmpty && b)
             (rc + (runFrom maxR b rc xs vs).restartsUsed) ys ws).events,
         (runFrom maxR (xs.isEmpty && b)
           (rc + (runFrom maxR b rc xs vs).restartsUsed) ys ws).halted,
         (runFrom maxR b rc xs vs).restartsUsed +
           (runFrom maxR (xs.isEmpty && b)
             (rc + (runFrom maxR b rc xs vs).restartsUsed) ys ws).restartsUsed⟩ := by
  intro xs
  induction xs with
  | nil =>
      intro vs b rc ys ws hlen _
      have hvs : vs = [] := List.eq_nil_of_length_eq_zero hlen
      subst hvs
      simp [runFrom]
  | cons x xs ih =>
      intro vs b rc ys ws hlen hnh
      rcases vs with _ | ⟨v, vs⟩
      · simp at hlen
      · have hlen' : vs.length = xs.length := by simpa using hlen
        by_cases hs : (stepIter maxR b rc x v).2.2
        · exfalso
          simp [runFrom, hs] at hnh
        · have htail : (runFrom maxR false (rc + (stepIter maxR b rc x v).2.1) xs vs).halted = false := by
            simp [runFrom, hs] at hnh
            exact hnh
          have := ih vs false (rc + (stepIter maxR b rc x v).2.1) ys ws hlen' htail
          simp only [List.cons_append, runFrom, List.headD_cons, List.tail_cons, hs,
            if_false, Bool.false_eq_true] at *
          simp [this, List.append_assoc, Nat.add_assoc, List.isEmpty_cons]

/-- A loop iteration whose session is healthy and whose body does not
fault: the identifier's events are appended and the run continues with
the same restart count. -/
theorem runFrom_cons_ok (maxR : Nat) (b : Bool) (rc : Nat) (p : String)
    (ps : List String) (w : World) (ws : List World)
    (ha : is_driver_alive w.aliveProbe = true)
    (hnf : (processIdent b w).faulted = false) :
    runFrom maxR b rc (p :: ps) (w :: ws) =
      ⟨(processIdent b w).events.map (fun c => (p, c)) ++
         (runFrom maxR false rc ps ws).events,
       (runFrom maxR false rc ps ws).halted,
       (runFrom maxR false rc ps ws).restartsUsed⟩ := by
  simp [runFrom, stepIter, procIter, ha, hnf]

/-- A loop iteration whose session is healthy but whose body faults,
while the budget still has room and the relogin succeeds: the events
up to and including the fallback are appended, restart_count gains
one, and the run continues with the next identifier. -/
theorem runFrom_cons_fault (maxR : Nat) (b : Bool) (rc : Nat) (p : String)
    (ps : List String) (w : World) (ws : List World)
    (ha : is_driver_alive w.aliveProbe = true)
    (hf : (processIdent b w).faulted = true)
    (hb : rc + 1 ≤ maxR) (hr : w.faultRestartOk = true) :
    runFrom maxR b rc (p :: ps) (w :: ws) =
      ⟨(processIdent b w).events.map (fun c => (p, c)) ++
         (runFrom maxR false (rc + 1) ps ws).events,
       (runFrom maxR false (rc + 1) ps ws).halted,
       1 + (runFrom maxR false (rc + 1) ps ws).restartsUsed⟩ := by
  have hnl : ¬ (maxR < rc + 1) := by omega
  simp [runFrom, stepIter, procIter, ha, hf, hnl, hr]

/-- A loop iteration whose health probe reports a dead session, while
the budget still has room and the relogin succeeds: restart_count
gains one and the body then runs for the same identifier. -/
theorem runFrom_cons_dead (maxR : Nat) (b : Bool) (rc : Nat) (p : String)
    (ps : List String) (w : World) (ws : List World)
    (ha : is_driver_alive w.aliveProbe = false)
    (hb : rc + 1 ≤ maxR) (hro : w.restartOk = true)
    (hnf : (processIdent b w).faulted = false) :
    runFrom maxR b rc (p :: ps) (w :: ws) =
      ⟨(processIdent b w).events.map (fun c => (p, c)) ++
         (runFrom maxR false (rc + 1) ps ws).events,
       (runFrom maxR false (rc + 1) ps ws).halted,
       1 + (runFrom maxR false (rc + 1) ps ws).restartsUsed⟩ := by
  have hnl : ¬ (maxR < rc + 1) := by omega
  simp [runFrom, stepIter, procIter, ha, hnl, hro, hnf]

/-- The body of faultWorld faults at once with the single fallback
category. -/
theorem processIdent_faultWorld (b : Bool) :
    processIdent b faultWorld = faultOut [Category.notInAceNet] := by
  simp [processIdent, faultWorld]

/-- A streak of fault iterations that together exhaust the remaining
budget: every streak identifier receives exactly the fallback event,
the counter grows by one per failure, and the run stops at the failure
that pushes the counter past the ceiling, never reaching the
identifiers behind the streak. -/
theorem runFrom_fault_streak (maxR : Nat) :
    ∀ (bad : List String) (b : Bool) (rc : Nat) (post : List String),
      rc + bad.length = maxR + 1 → bad ≠ [] →
      runFrom maxR b rc (bad ++ post) (List.replicate bad.length faultWorld) =
        ⟨bad.map (fun p => (p, Category.notInAceNet)), true, bad.length⟩ := by
  intro bad
  induction bad with
  | nil => intro b rc post _ hne; exact absurd rfl hne
  | cons p bad ih =>
      intro b rc post hlen _
      have halive : is_driver_alive faultWorld.aliveProbe = true := rfl
      have hfr : faultWorld.faultRestartOk = true := rfl
      by_cases hb : bad = []
      · subst hb
        have hrc : rc = maxR := by simpa using hlen
        have hlt : maxR < rc + 1 := by omega
        simp [runFrom, stepIter, procIter, processIdent_faultWorld, faultOut,
          halive, hlt]
      · have hlen2 : (rc + 1) + bad.length = maxR + 1 := by
          simp at hlen
          omega
        have hnl : ¬ (maxR < rc + 1) := by
          have : 1 ≤ bad.length := List.length_pos.mpr hb
          omega
        have := ih false (rc + 1) post hlen2 hb
        simp only [List.length_cons, List.replicate_succ, List.cons_append, runFrom,
          List.headD_cons, List.tail_cons]
        simp [stepIter, procIter, processIdent_faultWorld, faultOut,
          halive, hfr, hnl, this]
        omega

theorem classifyStep_exclusive (b : Bool) (w : World)
    (hf : (classifyStep b w).faulted = false)
    (hm : Category.notInAceNet ∈ (classifyStep b w).events) :
    (classifyStep b w).events = [Category.notInAceNet] := by
  rcases hsf : statusFate w.extraction.statusText <;>
    simp only [classifyStep, hsf] at hf hm ⊢
  · by_cases hc : w.cleanupOkRsc
    · simp [hc] at hm
    · by_cases hn : w.cleanupOkNormal
      · simp [hc, hn] at hm
        exact absurd hm (notInAceNet_not_mem_indep b w.extraction)
      · simp [hc, hn, faultOut] at hf
  · by_cases hc : w.cleanupOkCancelled
    · simp [hc] at hm
    · simp [hc, faultOut] at hf
  · by_cases hc : w.cleanupOkNormal
    · simp [hc] at hm
      exact absurd hm (notInAceNet_not_mem_indep b w.extraction)
    · simp [hc, faultOut] at hf

set_option maxHeartbeats 1600000 in
theorem afterSku_exclusive (b : Bool) (w : World)
    (hf : (afterSku b w).faulted = false)
    (hm : Category.notInAceNet ∈ (afterSku b w).events) :
    (afterSku b w).events = [Category.notInAceNet] := by
  simp only [afterSku] at hf hm ⊢
  split_ifs at hf hm ⊢ <;>
    first
      | rfl
      | exact classifyStep_exclusive b w hf hm
      | simp [faultOut] at hf

/- ------------------------------------------------------------------
C1 -- NotInCatalog exclusivity.
------------------------------------------------------------------ -/

/-- C1 counterexample: in a run where the switch-back of lines 628-630
raises after the No Discovery rule has already appended its event, the
per-identifier handler of line 634 appends "Not in AceNet" as well, so
identifier A1 receives both a NoDiscovery and a NotInCatalog event:
NotInCatalog is not the only event for that identifier. -/
theorem notInCatalog_co_occurrence_cex :
    runFrom 50 true 0 ["A1"] [cexWorld] =
      ⟨[("A1", Category.noDiscovery), ("A1", Category.notInAceNet)], false, 1⟩ ∧
    ("A1", Category.noDiscovery) ∈ (runFrom 50 true 0 ["A1"] [cexWorld]).events ∧
    ("A1", Category.notInAceNet) ∈ (runFrom 50 true 0 ["A1"] [cexWorld]).events :=
  ⟨by decide, by decide, by decide⟩

/-- C1 (amended): for an identifier whose iteration completes without
an unhandled fault, a NotInCatalog event is the only event emitted;
when an unhandled fault strikes after extraction rules have emitted
events, the fallback NotInCatalog event is appended in addition, so
the exclusivity only holds on fault-free iterations. -/
theorem notInCatalog_exclusive_no_fault (b : Bool) (w : World)
    (hf : (processIdent b w).faulted = false)
    (hm : Category.notInAceNet ∈ (processIdent b w).events) :
    (processIdent b w).events = [Category.notInAceNet] := by
  simp only [processIdent] at hf hm ⊢
  split_ifs at hf hm ⊢ <;>
    first
      | rfl
      | exact afterSku_exclusive b w hf hm
      | simp [faultOut] at hf

theorem notInCatalog_exclusive_no_fault_witness :
    (processIdent false redirWorld).faulted = false ∧
    (processIdent false redirWorld).events = [Category.notInAceNet] :=
  ⟨by decide, notInCatalog_exclusive_no_fault false redirWorld (by decide) (by decide)⟩

/- ------------------------------------------------------------------
C2 -- navigation faults and the restart budget.
------------------------------------------------------------------ -/

/-- C2 counterexample: a single, isolated navigation fault (the popup
window switch of line 477 raises) does not leave the restart counter
unchanged: the handler of lines 632-651 quits the browser and
restarts, and restart_count goes from 0 to 1. -/
theorem nav_fault_budget_cex :
    runFrom 50 true 0 ["X1"] [navFaultWorld] =
      ⟨[("X1", Category.notInAceNet)], false, 1⟩ ∧
    (runFrom 50 true 0 ["X1"] [navFaultWorld]).restartsUsed ≠ 0 :=
  ⟨by decide, by decide⟩

/-- C2 (amended): a navigation fault that escapes the per-identifier
try block (for example the popup window switch raising) is recovered
by appending NotInCatalog as the final event for the current
identifier and by an immediate full session restart, which consumes
one unit of RestartBudget: such an isolated fault does not leave the
counter unchanged.  By contrast, a fault raised by the RSC-branch
switch-back (lines 536-538) is swallowed by the status-check handler
of line 548: the independent rules still run, no NotInCatalog event is
appended, and no restart is consumed. -/
theorem nav_fault_restarts_and_falls_back (maxR : Nat) (b : Bool) (rc : Nat)
    (p : String) (ps : List String) (w : World) (ws : List World)
    (ha : is_driver_alive w.aliveProbe = true)
    (hf : (processIdent b w).faulted = true)
    (hb : rc + 1 ≤ maxR) (hr : w.faultRestartOk = true) :
    (processIdent b w).events.getLast? = some Category.notInAceNet ∧
    runFrom maxR b rc (p :: ps) (w :: ws) =
      ⟨(processIdent b w).events.map (fun c => (p, c)) ++
         (runFrom maxR false (rc + 1) ps ws).events,
       (runFrom maxR false (rc + 1) ps ws).halted,
       1 + (runFrom maxR false (rc + 1) ps ws).restartsUsed⟩ ∧
    processIdent true rscSwallowWorld =
      ⟨[Category.notInRSC, Category.noDiscovery, Category.onOrder, Category.noLocation],
       false, false, true⟩ ∧
    runFrom 50 true 0 ["Y1"] [rscSwallowWorld] =
      ⟨[("Y1", Category.notInRSC), ("Y1", Category.noDiscovery),
        ("Y1", Category.onOrder), ("Y1", Category.noLocation)], false, 0⟩ :=
  ⟨faulted_last b w hf, runFrom_cons_fault maxR b rc p ps w ws ha hf hb hr,
   by decide, by decide⟩

theorem nav_fault_restarts_and_falls_back_witness :
    (processIdent true navFaultWorld).events.getLast? = some Category.notInAceNet ∧
    runFrom 50 true 0 ["X1"] [navFaultWorld] =
      ⟨(processIdent true navFaultWorld).events.map (fun c => ("X1", c)) ++
         (runFrom 50 false 1 [] []).events,
       (runFrom 50 false 1 [] []).halted,
       1 + (runFrom 50 false 1 [] []).restartsUsed⟩ ∧
    processIdent true rscSwallowWorld =
      ⟨[Category.notInRSC, Category.noDiscovery, Category.onOrder, Category.noLocation],
       false, false, true⟩ ∧
    runFrom 50 true 0 ["Y1"] [rscSwallowWorld] =
      ⟨[("Y1", Category.notInRSC), ("Y1", Category.noDiscovery),
        ("Y1", Category.onOrder), ("Y1", Category.noLocation)], false, 0⟩ :=
  nav_fault_restarts_and_falls_back 50 true 0 "X1" [] navFaultWorld []
    (by decide) (by decide) (by decide) (by decide)

/- ------------------------------------------------------------------
C3 -- fulfillment-center short-circuit.
------------------------------------------------------------------ -/

/-- C3: when the stripped status text matches a fulfillment-center
exclusion pattern, the classifier emits exactly the single event
NotInFulfillmentCenter and evaluates none of the remaining rules, for
every value of the other extracted fields. -/
theorem rsc_short_circuit (b : Bool) (e : Extraction) (t : String)
    (hs : e.statusText = some t)
    (hne : pyStrip t ≠ "")
    (hm : rscMatch (pyStrip t) = true) :
    classify b e = [Category.notInRSC] := by
  simp [classify, statusFate, hs, hne, hm]

theorem rsc_short_circuit_witness :
    classify true eRsc = [Category.notInRSC] :=
  rsc_short_circuit true eRsc "Not carried in your RSC" rfl (by decide) (by decide)

/- ------------------------------------------------------------------
C4 -- cancellation rule with replacement suppression.
------------------------------------------------------------------ -/

/-- C4: for an identifier not taken by the fulfillment-center rule,
Cancelled is emitted exactly when the stripped status text is
non-empty, matches the cancellation/closeout pattern and does not
match the replacement/discontinued pattern; when it is emitted it is
the only category, and when it is not emitted the independent rules
run. -/
theorem cancelled_rule_characterization (b : Bool) (e : Extraction) (t : String)
    (hs : e.statusText = some t)
    (hrsc : rscMatch (pyStrip t) = false) :
    ((Category.cancelled ∈ classify b e) ↔
       (pyStrip t ≠ "" ∧ cancelMatch (pyStrip t) = true ∧ replMatch (pyStrip t) = false)) ∧
    (Category.cancelled ∈ classify b e → classify b e = [Category.cancelled]) ∧
    (Category.cancelled ∉ classify b e → classify b e = indepEvents b e) := by
  by_cases he : pyStrip t = ""
  · have hcl : classify b e = indepEvents b e := by
      simp [classify, statusFate, hs, he]
    rw [hcl]
    refine ⟨?_, ?_, fun _ => rfl⟩
    · simp [cancelled_not_mem_indep b e, he]
    · intro hmem
      exact absurd hmem (cancelled_not_mem_indep b e)
  · by_cases hc : cancelMatch (pyStrip t)
    · by_cases hr : replMatch (pyStrip t)
      · have hcl : classify b e = indepEvents b e := by
          simp [classify, statusFate, hs, he, hrsc, hc, hr]
        rw [hcl]
        refine ⟨?_, ?_, fun _ => rfl⟩
        · simp [cancelled_not_mem_indep b e, hr]
        · intro hmem
          exact absurd hmem (cancelled_not_mem_indep b e)
      · have hcl : classify b e = [Category.cancelled] := by
          simp [classify, statusFate, hs, he, hrsc, hc, hr]
        rw [hcl]
        refine ⟨?_, fun _ => rfl, ?_⟩
        · simp [he, hc, hr]
        · intro hmem
          simp at hmem
    · have hcl : classify b e = indepEvents b e := by
        simp [classify, statusFate, hs, he, hrsc, hc]
      rw [hcl]
      refine ⟨?_, ?_, fun _ => rfl⟩
      · simp [cancelled_not_mem_indep b e, hc]
      · intro hmem
        exact absurd hmem (cancelled_not_mem_indep b e)

theorem cancelled_rule_characterization_witness :
    (((Category.cancelled ∈ classify true eCancelRepl) ↔
        (pyStrip "Cancelled - replacement available" ≠ "" ∧
         cancelMatch (pyStrip "Cancelled - replacement available") = true ∧
         replMatch (pyStrip "Cancelled - replacement available") = false)) ∧
     (Category.cancelled ∈ classify true eCancelRepl →
        classify true eCancelRepl = [Category.cancelled]) ∧
     (Category.cancelled ∉ classify true eCancelRepl →
        classify true eCancelRepl = indepEvents true eCancelRepl)) ∧
    cancelMatch (pyStrip "Cancelled - replacement available") = true ∧
    replMatch (pyStrip "Cancelled - replacement available") = true ∧
    classify true eCancelRepl =
      [Category.noDiscovery, Category.noAsterisk, Category.onOrder, Category.noLocation] :=
  ⟨cancelled_rule_characterization true eCancelRepl "Cancelled - replacement available"
      rfl (by decide),
   by decide, by decide, by decide⟩

/- ------------------------------------------------------------------
C5 -- restart budget exhaustion.
------------------------------------------------------------------ -/

/-- C5: after any fault-free prefix that consumed no restarts, a
streak of maxRestarts + 1 consecutive session failures halts the run:
the counter is incremented on each failure and the run stops as soon
as the counter strictly exceeds the ceiling; every event emitted
before the streak is preserved in the result and no identifier after
the halt gets any event (the post identifiers do not appear at all). -/
theorem restart_budget_exhaustion_halts (maxR : Nat)
    (pre bad post : List String) (preWs : List World)
    (hlen : preWs.length = pre.length)
    (hbad : bad.length = maxR + 1)
    (hnh : (runFrom maxR true 0 pre preWs).halted = false)
    (hr0 : (runFrom maxR true 0 pre preWs).restartsUsed = 0) :
    runFrom maxR true 0 (pre ++ (bad ++ post))
        (preWs ++ List.replicate bad.length faultWorld) =
      ⟨(runFrom maxR true 0 pre preWs).events ++
         bad.map (fun p => (p, Category.notInAceNet)),
       true, maxR + 1⟩ := by
  have happ := runFrom_append maxR pre preWs true 0 (bad ++ post)
    (List.replicate bad.length faultWorld) hlen hnh
  have hne : bad ≠ [] := by
    have hpos : 0 < bad.length := by omega
    exact List.length_pos.mp hpos
  have hstreak := runFrom_fault_streak maxR bad (pre.isEmpty && true) 0 post
    (by omega) hne
  rw [happ, hr0]
  simp only [Nat.add_zero, Nat.zero_add, Bool.and_true]
  simp only [Bool.and_true] at hstreak
  rw [hstreak]
  simp [hbad]

theorem restart_budget_exhaustion_halts_witness :
    runFrom 1 true 0 (["A"] ++ (["B", "C"] ++ ["D"]))
        ([okWorld eAisle] ++ List.replicate (["B", "C"].length) faultWorld) =
      ⟨(runFrom 1 true 0 ["A"] [okWorld eAisle]).events ++
         ["B", "C"].map (fun p => (p, Category.notInAceNet)),
       true, 1 + 1⟩ :=
  restart_budget_exhaustion_halts 1 ["A"] ["B", "C"] ["D"] [okWorld eAisle]
    (by decide) (by decide) (by decide) (by decide)

/- ------------------------------------------------------------------
C6 -- liveness failure: one restart, resume at the same identifier.
------------------------------------------------------------------ -/

/-- C6: the liveness probe returns false on a communication fault
rather than raising, and when it fails before identifier p while the
budget still has room and the relogin succeeds, exactly one restart is
charged and the body then processes identifier p itself (its
classification events come first in the result), after which the run
continues with the remaining identifiers only. -/
theorem liveness_failure_one_restart_resumes (maxR : Nat) (b : Bool) (rc : Nat)
    (p : String) (ps : List String) (e : Extraction) (ws : List World)
    (hb : rc + 1 ≤ maxR) :
    is_driver_alive TitleProbe.webDriverExc = false ∧
    runFrom maxR b rc (p :: ps) (deadOkWorld e :: ws) =
      ⟨(classify b e).map (fun c => (p, c)) ++
         (runFrom maxR false (rc + 1) ps ws).events,
       (runFrom maxR false (rc + 1) ps ws).halted,
       1 + (runFrom maxR false (rc + 1) ps ws).restartsUsed⟩ := by
  refine ⟨rfl, ?_⟩
  have ha : is_driver_alive (deadOkWorld e).aliveProbe = false := rfl
  have hro : (deadOkWorld e).restartOk = true := rfl
  have hpe : processIdent b (deadOkWorld e) = ⟨classify b e, false, false, true⟩ :=
    processIdent_okWorldP b e TitleProbe.webDriverExc
  have hnf : (processIdent b (deadOkWorld e)).faulted = false := by rw [hpe]
  rw [runFrom_cons_dead maxR b rc p ps (deadOkWorld e) ws ha hb hro hnf, hpe]

theorem liveness_failure_one_restart_resumes_witness :
    is_driver_alive TitleProbe.webDriverExc = false ∧
    runFrom 50 true 0 ["K", "L"] (deadOkWorld eLive :: [okWorld eLive]) =
      ⟨(classify true eLive).map (fun c => ("K", c)) ++
         (runFrom 50 false 1 ["L"] [okWorld eLive]).events,
       (runFrom 50 false 1 ["L"] [okWorld eLive]).halted,
       1 + (runFrom 50 false 1 ["L"] [okWorld eLive]).restartsUsed⟩ :=
  liveness_failure_one_restart_resumes 50 true 0 "K" ["L"] eLive [okWorld eLive]
    (by decide)

/- ------------------------------------------------------------------
C7 -- no-results redirect and missing popup.
------------------------------------------------------------------ -/

/-- C7: when, after the settle delay, the main window address matches
the no-results search pattern (and its cleanup navigation succeeds),
or no second window handle exists, the identifier receives exactly the
single category NotInCatalog and the iteration ends without a fault,
so the loop advances to the next identifier without frame search or
field extraction. -/
theorem redirect_or_no_popup_single_fallback (b : Bool) (w : World)
    (h1 : w.switchMainOk = true)
    (h2 : w.skuFound1 = true ∨ (w.retryNavOk = true ∧ w.skuFound2 = true))
    (h3 : w.sendKeysOk = true) (h4 : w.debugLoopOk = true)
    (h5 : w.switchMainOk2 = true)
    (h6 : (w.redirected = true ∧ w.redirectCleanupOk = true) ∨
          (w.redirected = false ∧ w.handlesOk = true ∧ w.numWindows < 2)) :
    (processIdent b w).events = [Category.notInAceNet] ∧
    (processIdent b w).faulted = false := by
  rcases h6 with ⟨h6a, h6b⟩ | ⟨h6a, h6b, h6c⟩ <;>
    rcases h2 with h2 | ⟨h2a, h2b⟩ <;>
    constructor <;>
    simp [processIdent, afterSku, h1, h3, h4, h5, *]

theorem redirect_or_no_popup_single_fallback_witness :
    (processIdent true redirWorld).events = [Category.notInAceNet] ∧
    (processIdent true redirWorld).faulted = false :=
  redirect_or_no_popup_single_fallback true redirWorld (by decide)
    (Or.inl (by decide)) (by decide) (by decide) (by decide)
    (Or.inl (by decide))

/- ------------------------------------------------------------------
C8 -- the No Discovery rule.
------------------------------------------------------------------ -/

/-- C8: for an identifier that reaches the independent rules (no
short-circuit), NoDiscovery is emitted exactly when the probe loop --
up to 3 attempts for the first identifier of the run, 2 afterwards,
taking the first hit -- ends with no hit, or with a hit whose stripped
text is empty. -/
theorem noDiscovery_characterization (b : Bool) (e : Extraction)
    (h : statusFate e.statusText = StatusFate.through) :
    (Category.noDiscovery ∈ classify b e ↔
       discoveryResult b e.discoveryAttempts = none ∨
         ∃ t, discoveryResult b e.discoveryAttempts = some t ∧ pyStrip t = "") ∧
    discoveryResult b e.discoveryAttempts =
      (List.range (if b then 3 else 2)).findSome?
        (fun k => e.discoveryAttempts.getD k none) := by
  refine ⟨?_, rfl⟩
  have hcl : classify b e = indepEvents b e := by
    simp [classify, h]
  rw [hcl, noDiscovery_mem_indep_iff]
  unfold discoveryMiss
  rcases hr : discoveryResult b e.discoveryAttempts with _ | t <;> simp [hr]

theorem noDiscovery_characterization_witness :
    (Category.noDiscovery ∈ classify true eAisle ↔
       discoveryResult true eAisle.discoveryAttempts = none ∨
         ∃ t, discoveryResult true eAisle.discoveryAttempts = some t ∧ pyStrip t = "") ∧
    discoveryResult true eAisle.discoveryAttempts =
      (List.range (if true then 3 else 2)).findSome?
        (fun k => eAisle.discoveryAttempts.getD k none) :=
  noDiscovery_characterization true eAisle rfl

/- ------------------------------------------------------------------
C9 -- the On Order rule.
------------------------------------------------------------------ -/

/-- A parsed decimal is positive under the source's comparison exactly
when its real value is strictly greater than zero. -/
theorem isPos_iff_toRat (v : FloatVal) : v.isPos = true ↔ (0 : Rat) < v.toRat := by
  unfold FloatVal.isPos FloatVal.toRat
  rw [decide_eq_true_eq]
  have hden : (0 : Rat) < 10 ^ v.scale := by positivity
  rw [div_pos_iff]
  constructor
  · intro hv
    exact Or.inl ⟨by exact_mod_cast hv, hden⟩
  · rintro (⟨h1, _⟩ | ⟨_, h2⟩)
    · exact_mod_cast h1
    · linarith

/-- C9: for an identifier that reaches the independent rules, OnOrder
is emitted exactly when the stripped order-quantity text parses as a
decimal whose value is strictly greater than zero; the text "0" does
not fire, "3.5" fires, "N/A" fails to parse and fires nothing, and an
absent display also fires nothing -- in each case without an error. -/
theorem onOrder_characterization (b : Bool) (e : Extraction)
    (h : statusFate e.statusText = StatusFate.through) :
    (Category.onOrder ∈ classify b e ↔
       ∃ t v, e.orderText = some t ∧ pyFloat (pyStrip t) = some v ∧
         (0 : Rat) < v.toRat) ∧
    pyFloat (pyStrip "0") = some ⟨0, 0⟩ ∧ (⟨0, 0⟩ : FloatVal).isPos = false ∧
    pyFloat (pyStrip "3.5") = some ⟨35, 1⟩ ∧ (⟨35, 1⟩ : FloatVal).isPos = true ∧
    pyFloat (pyStrip "N/A") = none ∧
    orderEv (some "N/A") = [] ∧ orderEv none = [] := by
  have hcl : classify b e = indepEvents b e := by
    simp [classify, h]
  refine ⟨?_, by decide, by decide, by decide, by decide, by decide, by decide, by decide⟩
  rw [hcl, onOrder_mem_indep_iff]
  constructor
  · rintro ⟨t, v, h1, h2, h3⟩
    exact ⟨t, v, h1, h2, (isPos_iff_toRat v).1 h3⟩
  · rintro ⟨t, v, h1, h2, h3⟩
    exact ⟨t, v, h1, h2, (isPos_iff_toRat v).2 h3⟩

theorem onOrder_characterization_witness :
    (Category.onOrder ∈ classify true eOrder ↔
       ∃ t v, eOrder.orderText = some t ∧ pyFloat (pyStrip t) = some v ∧
         (0 : Rat) < v.toRat) ∧
    pyFloat (pyStrip "0") = some ⟨0, 0⟩ ∧ (⟨0, 0⟩ : FloatVal).isPos = false ∧
    pyFloat (pyStrip "3.5") = some ⟨35, 1⟩ ∧ (⟨35, 1⟩ : FloatVal).isPos = true ∧
    pyFloat (pyStrip "N/A") = none ∧
    orderEv (some "N/A") = [] ∧ orderEv none = [] :=
  onOrder_characterization true eOrder rfl

/- ------------------------------------------------------------------
C10 -- search box never found: skip without a restart.
------------------------------------------------------------------ -/

/-- C10: when the search box is not found, the full-page-reload retry
navigation succeeds but the box is still missing, and the skip
branch's cleanup succeeds, the identifier gets exactly the single
category NotInCatalog, every transient window is closed, focus
returns to the main window, no fault is recorded, and the run
continues with the next identifier at an unchanged restart count. -/
theorem sku_missing_skips_without_restart (maxR : Nat) (b : Bool) (rc : Nat)
    (p : String) (ps : List String) (w : World) (ws : List World)
    (ha : w.aliveProbe = TitleProbe.ok)
    (h1 : w.switchMainOk = true) (h2 : w.skuFound1 = false)
    (h3 : w.retryNavOk = true) (h4 : w.skuFound2 = false)
    (h5 : w.skipCleanupOk = true) :
    processIdent b w =
      ⟨[Category.notInAceNet], false, true, true⟩ ∧
    runFrom maxR b rc (p :: ps) (w :: ws) =
      ⟨(p, Category.notInAceNet) :: (runFrom maxR false rc ps ws).events,
       (runFrom maxR false rc ps ws).halted,
       (runFrom maxR false rc ps ws).restartsUsed⟩ := by
  have hp : processIdent b w = ⟨[Category.notInAceNet], false, true, true⟩ := by
    simp [processIdent, h1, h2, h3, h4, h5]
  refine ⟨hp, ?_⟩
  have ha2 : is_driver_alive w.aliveProbe = true := by rw [ha]; rfl
  have hnf : (processIdent b w).faulted = false := by rw [hp]
  rw [runFrom_cons_ok maxR b rc p ps w ws ha2 hnf, hp]
  simp

theorem sku_missing_skips_without_restart_witness :
    processIdent true skuMissWorld =
      ⟨[Category.notInAceNet], false, true, true⟩ ∧
    runFrom 50 true 0 ["P1"] (skuMissWorld :: []) =
      ⟨("P1", Category.notInAceNet) :: (runFrom 50 false 0 [] []).events,
       (runFrom 50 false 0 [] []).halted,
       (runFrom 50 false 0 [] []).restartsUsed⟩ :=
  sku_missing_skips_without_restart 50 true 0 "P1" [] skuMissWorld []
    (by decide) (by decide) (by decide) (by decide) (by decide) (by decide)

